import Mathlib

/-!
Shallow embedding of the Gaussian-process regression core of the `lim`
repository (`lim/gp/regression.py` and `lim/inference/regression.py`) and of
the heritability-estimation driver `lim/genetics/heritability/estimate.py`.

Conventions: real vectors and matrices are lists of rationals; the external
`numpy.linalg` routines `solve` and `slogdet` and the scalars `log`/`pi` are
abstracted into a `NumEnv` record of uninterpreted functions, since their
implementations live outside the repository.  Python exceptions are modelled
with `Except Err`.  The raw datasets bound to a mean (resp. covariance)
function under a purpose are abstract values of a type parameter `μ`
(resp. pairs over `ρ`, mirroring the `(left, right)` raw tuples the tests
bind, whose components the code reads back as `.raw[0]`).
-/

/-- The named evaluation purposes of `lim.func` data binding. -/
inductive Purpose where
  | sample
  | learn
  | predict
  | learn_predict
deriving DecidableEq

/-- Python exceptions that the embedded code can raise. -/
inductive Err where
  | unboundData (purpose : Purpose)
  | assertionError
  | indexError
  | nameError (n : String)
  | valueError
  | exception (msg : String)
deriving DecidableEq

/-- Decidable equality on `Except`, used to evaluate concrete witnesses. -/
instance {ε α : Type} [DecidableEq ε] [DecidableEq α] : DecidableEq (Except ε α) :=
  fun a b =>
    match a, b with
    | Except.ok x, Except.ok y =>
        if h : x = y then Decidable.isTrue (by rw [h])
        else Decidable.isFalse (by intro hc; cases hc; exact h rfl)
    | Except.error x, Except.error y =>
        if h : x = y then Decidable.isTrue (by rw [h])
        else Decidable.isFalse (by intro hc; cases hc; exact h rfl)
    | Except.ok _, Except.error _ => Decidable.isFalse (by intro hc; cases hc)
    | Except.error _, Except.ok _ => Decidable.isFalse (by intro hc; cases hc)

/-- numpy dot product of two 1-d arrays. -/
def dot (a b : List ℚ) : ℚ := (List.zipWith (fun x y => x * y) a b).sum

/-- numpy elementwise subtraction `a - b` on 1-d arrays of equal length. -/
def vsub (a b : List ℚ) : List ℚ := List.zipWith (fun x y => x - y) a b

/-- numpy elementwise addition `a + b` on 1-d arrays of equal length. -/
def vadd (a b : List ℚ) : List ℚ := List.zipWith (fun x y => x + y) a b

/-- Matrix-vector product `M.dot(v)`, rows listed first. -/
def matVec (M : List (List ℚ)) (v : List ℚ) : List ℚ := M.map (fun r => dot r v)

/-- `M.diagonal().sum()` of numpy. -/
def diagSum (M : List (List ℚ)) : ℚ := (M.enum.map (fun p => p.2.getD p.1 0)).sum

/-- The external numerical routines used by `regression.py`: `numpy.linalg.solve`
(on a vector and on a matrix right-hand side), `numpy.linalg.slogdet`
returning `(sign, logdet)`, and the scalars `numpy.log` and `numpy.pi`.
They are uninterpreted parameters of the embedding. -/
structure NumEnv where
  solve : List (List ℚ) → List ℚ → List ℚ
  solveM : List (List ℚ) → List (List ℚ) → List (List ℚ)
  slogdet : List (List ℚ) → ℚ × ℚ
  log : ℚ → ℚ
  pi : ℚ

/-- One named hyperparameter with its value and fixed flag. -/
structure Variable where
  name : String
  value : ℚ
  fixed : Bool
deriving DecidableEq

/-- A mean function object: per-purpose bound raw data (of abstract type `μ`),
its value and gradient over a bound dataset, and its hyperparameters. -/
structure MeanFunc (μ : Type) where
  raw : Purpose → Option μ
  value : μ → List ℚ
  grad : μ → List (List ℚ)
  vars : List Variable

/-- A covariance function object: per-purpose bound raw data pairs over `ρ`,
its value and gradient over a bound pair, and its hyperparameters. -/
structure CovFunc (ρ : Type) where
  raw : Purpose → Option (ρ × ρ)
  value : ρ × ρ → List (List ℚ)
  grad : ρ × ρ → List (List (List ℚ))
  vars : List Variable

/-- `cov.set_data(a, b, purpose=purpose)`: bind the raw pair `(a, b)` under
`purpose`, leaving every other purpose's binding untouched. -/
def CovFunc.set_data {ρ : Type} (c : CovFunc ρ) (a b : ρ) (purpose : Purpose) :
    CovFunc ρ :=
  { c with raw := fun p => if p = purpose then some (a, b) else c.raw p }

/-- `cov.unset_data(purpose=purpose)`: remove the binding under `purpose`. -/
def CovFunc.unset_data {ρ : Type} (c : CovFunc ρ) (purpose : Purpose) : CovFunc ρ :=
  { c with raw := fun p => if p = purpose then none else c.raw p }

/-- `f.data(purpose)`: accessing an unbound purpose raises. -/
def getData {α : Type} (o : Option α) (purpose : Purpose) : Except Err α :=
  match o with
  | some x => Except.ok x
  | none => Except.error (Err.unboundData purpose)

/-- Python list indexing `l[i]`, raising `IndexError` when out of range. -/
def pyIndex {α : Type} (l : List α) (i : Nat) : Except Err α :=
  match l.get? i with
  | some x => Except.ok x
  | none => Except.error Err.indexError

/-- `for i in range(n): g.append(body(i))`, with effects in loop order. -/
def forRange {γ : Type} (f : Nat → Except Err γ) : Nat → Except Err (List γ)
  | 0 => Except.ok []
  | n + 1 => do
      let xs ← forRange f n
      let x ← f n
      pure (xs ++ [x])

/-- The `RegGP` state: `__init__` stores the references `y`, `mean`, `cov`
and performs no computation or validation (both source files agree). -/
structure RegGP (μ ρ : Type) where
  y : List ℚ
  mean : MeanFunc μ
  cov : CovFunc ρ

/-- Modelled from the spec: `merge_variables` lives in `lim.func`, which is
not under src/.  The spec states that the merged set qualifies each variable
with its owner's role ("mean" / "cov") and iterates all mean variables first,
in their own declared order, then all covariance variables. -/
def merge_variables (meanVars covVars : List Variable) : List (String × Variable) :=
  meanVars.map (fun v => ("mean", v)) ++ covVars.map (fun v => ("cov", v))

namespace Gp

/-- `RegGP._Kim` of `lim/gp/regression.py`: the single learn-purpose linear
solve `solve(K, y - m)`. -/
def Kim {μ ρ : Type} (env : NumEnv) (gp : RegGP μ ρ) : Except Err (List ℚ) := do
  let mr ← getData (gp.mean.raw Purpose.learn) Purpose.learn
  let m := gp.mean.value mr
  let kr ← getData (gp.cov.raw Purpose.learn) Purpose.learn
  let K := gp.cov.value kr
  pure (env.solve K (vsub gp.y m))

/-- `RegGP.lml` of `lim/gp/regression.py`, including the `assert s == 1.`
check on the sign returned by `slogdet`. -/
def lml {μ ρ : Type} (env : NumEnv) (gp : RegGP μ ρ) : Except Err ℚ := do
  let Kiym ← Kim env gp
  let mr ← getData (gp.mean.raw Purpose.learn) Purpose.learn
  let ym := vsub gp.y (gp.mean.value mr)
  let kr ← getData (gp.cov.raw Purpose.learn) Purpose.learn
  let sd := env.slogdet (gp.cov.value kr)
  if sd.1 = 1 then
    pure ((- (sd.2 + dot ym Kiym + (gp.y.length : ℚ) * env.log (2 * env.pi))) / 2)
  else
    Except.error Err.assertionError

/-- `RegGP._lml_gradient_mean` of `lim/gp/regression.py`. -/
def lml_gradient_mean {μ ρ : Type} (env : NumEnv) (gp : RegGP μ ρ) :
    Except Err (List ℚ) := do
  let vars_ := gp.mean.vars.filter (fun v => !v.fixed)
  let Kiym ← Kim env gp
  forRange
    (fun i => do
      let mr ← getData (gp.mean.raw Purpose.learn) Purpose.learn
      let dm ← pyIndex (gp.mean.grad mr) i
      pure (dot dm Kiym))
    vars_.length

/-- `RegGP._lml_gradient_cov` of `lim/gp/regression.py`. -/
def lml_gradient_cov {μ ρ : Type} (env : NumEnv) (gp : RegGP μ ρ) :
    Except Err (List ℚ) := do
  let vars_ := gp.cov.vars.filter (fun v => !v.fixed)
  let kr ← getData (gp.cov.raw Purpose.learn) Purpose.learn
  let K := gp.cov.value kr
  let Kiym ← Kim env gp
  let g ← forRange
    (fun i => do
      let kr2 ← getData (gp.cov.raw Purpose.learn) Purpose.learn
      let dK ← pyIndex (gp.cov.grad kr2) i
      pure (- diagSum (env.solveM K dK) + dot Kiym (matVec dK Kiym)))
    vars_.length
  pure (g.map (fun gi => gi / 2))

/-- `RegGP.lml_gradient` of `lim/gp/regression.py`: the source computes
`grad_cov`, then `grad_mean`, and returns `grad_cov + grad_mean`. -/
def lml_gradient {μ ρ : Type} (env : NumEnv) (gp : RegGP μ ρ) :
    Except Err (List ℚ) := do
  let grad_cov ← lml_gradient_cov env gp
  let grad_mean ← lml_gradient_mean env gp
  pure (grad_cov ++ grad_mean)

/-- `RegGP.variables` of `lim/gp/regression.py`:
`merge_variables(dict(mean=v0, cov=v1))` over the free selections. -/
def variablesOf {μ ρ : Type} (gp : RegGP μ ρ) : List (String × Variable) :=
  merge_variables (gp.mean.vars.filter (fun v => !v.fixed))
    (gp.cov.vars.filter (fun v => !v.fixed))

/-- `RegGP.learn` of `lim/gp/regression.py`.  The source first installs
`self.value = lambda: self.lml()` and `self.gradient = lambda: self.lml_gradient()`
as the objective the optimizer queries, then dispatches on
`len(self.variables())`; the optimizers are the external `brent.maximize`
and `tnc.maximize`, modelled as state transformers. -/
def learn {μ ρ : Type} (maximize_scalar maximize_array : RegGP μ ρ → RegGP μ ρ)
    (gp : RegGP μ ρ) : RegGP μ ρ :=
  if (variablesOf gp).length = 0 then gp
  else if (variablesOf gp).length = 1 then maximize_scalar gp
  else maximize_array gp

/-- `RegGP.predict` of `lim/gp/regression.py`: reads the predict-purpose mean,
recomputes `_Kim`, reads the predict-purpose covariance, binds the
`learn_predict` purpose from `cov.data('learn').raw[0]` and
`cov.data('predict').raw[0]`, computes `m_p + K_lp.T.dot(_Kim)`, unbinds
`learn_predict`, and returns the estimate together with the mutated state. -/
def predict {μ ρ : Type} (env : NumEnv) (gp : RegGP μ ρ) :
    Except Err (List ℚ × RegGP μ ρ) := do
  let pr ← getData (gp.mean.raw Purpose.predict) Purpose.predict
  let m_p := gp.mean.value pr
  let _Kim ← Kim env gp
  let kpr ← getData (gp.cov.raw Purpose.predict) Purpose.predict
  let _K_pp := gp.cov.value kpr
  let klr ← getData (gp.cov.raw Purpose.learn) Purpose.learn
  let cov1 := gp.cov.set_data klr.1 kpr.1 Purpose.learn_predict
  let lpr ← getData (cov1.raw Purpose.learn_predict) Purpose.learn_predict
  let K_lp := cov1.value lpr
  let est_mean := vadd m_p (matVec (List.transpose K_lp) _Kim)
  let cov2 := cov1.unset_data Purpose.learn_predict
  pure (est_mean, { gp with cov := cov2 })

end Gp

namespace Inference

/-- `RegGP._Kim` of `lim/inference/regression.py`. -/
def Kim {μ ρ : Type} (env : NumEnv) (gp : RegGP μ ρ) : Except Err (List ℚ) := do
  let mr ← getData (gp.mean.raw Purpose.learn) Purpose.learn
  let m := gp.mean.value mr
  let kr ← getData (gp.cov.raw Purpose.learn) Purpose.learn
  let K := gp.cov.value kr
  pure (env.solve K (vsub gp.y m))

/-- `RegGP.lml` of `lim/inference/regression.py`. -/
def lml {μ ρ : Type} (env : NumEnv) (gp : RegGP μ ρ) : Except Err ℚ := do
  let Kiym ← Kim env gp
  let mr ← getData (gp.mean.raw Purpose.learn) Purpose.learn
  let ym := vsub gp.y (gp.mean.value mr)
  let kr ← getData (gp.cov.raw Purpose.learn) Purpose.learn
  let sd := env.slogdet (gp.cov.value kr)
  if sd.1 = 1 then
    pure ((- (sd.2 + dot ym Kiym + (gp.y.length : ℚ) * env.log (2 * env.pi))) / 2)
  else
    Except.error Err.assertionError

/-- `RegGP._lml_gradient_mean` of `lim/inference/regression.py`. -/
def lml_gradient_mean {μ ρ : Type} (env : NumEnv) (gp : RegGP μ ρ) :
    Except Err (List ℚ) := do
  let vars_ := gp.mean.vars.filter (fun v => !v.fixed)
  let Kiym ← Kim env gp
  forRange
    (fun i => do
      let mr ← getData (gp.mean.raw Purpose.learn) Purpose.learn
      let dm ← pyIndex (gp.mean.grad mr) i
      pure (dot dm Kiym))
    vars_.length

/-- `RegGP._lml_gradient_cov` of `lim/inference/regression.py`. -/
def lml_gradient_cov {μ ρ : Type} (env : NumEnv) (gp : RegGP μ ρ) :
    Except Err (List ℚ) := do
  let vars_ := gp.cov.vars.filter (fun v => !v.fixed)
  let kr ← getData (gp.cov.raw Purpose.learn) Purpose.learn
  let K := gp.cov.value kr
  let Kiym ← Kim env gp
  let g ← forRange
    (fun i => do
      let kr2 ← getData (gp.cov.raw Purpose.learn) Purpose.learn
      let dK ← pyIndex (gp.cov.grad kr2) i
      pure (- diagSum (env.solveM K dK) + dot Kiym (matVec dK Kiym)))
    vars_.length
  pure (g.map (fun gi => gi / 2))

/-- `RegGP.lml_gradient` of `lim/inference/regression.py`: returns
`grad_cov + grad_mean`. -/
def lml_gradient {μ ρ : Type} (env : NumEnv) (gp : RegGP μ ρ) :
    Except Err (List ℚ) := do
  let grad_cov ← lml_gradient_cov env gp
  let grad_mean ← lml_gradient_mean env gp
  pure (grad_cov ++ grad_mean)

/-- `RegGP.variables` of `lim/inference/regression.py`. -/
def variablesOf {μ ρ : Type} (gp : RegGP μ ρ) : List (String × Variable) :=
  merge_variables (gp.mean.vars.filter (fun v => !v.fixed))
    (gp.cov.vars.filter (fun v => !v.fixed))

/-- `RegGP.value` of `lim/inference/regression.py`. -/
def value {μ ρ : Type} (env : NumEnv) (gp : RegGP μ ρ) : Except Err ℚ :=
  lml env gp

/-- `RegGP.gradient` of `lim/inference/regression.py`. -/
def gradient {μ ρ : Type} (env : NumEnv) (gp : RegGP μ ρ) : Except Err (List ℚ) :=
  lml_gradient env gp

/-- `RegGP.learn` of `lim/inference/regression.py`: dispatches on
`len(self.variables())`; the objective the optimizers query is the pair of
`value`/`gradient` methods above. -/
def learn {μ ρ : Type} (maximize_scalar maximize_array : RegGP μ ρ → RegGP μ ρ)
    (gp : RegGP μ ρ) : RegGP μ ρ :=
  if (variablesOf gp).length = 0 then gp
  else if (variablesOf gp).length = 1 then maximize_scalar gp
  else maximize_array gp

/-- `RegGP.predict` of `lim/inference/regression.py`: reads the
already-bound `learn_predict` purpose instead of binding it itself, and
mutates nothing. -/
def predict {μ ρ : Type} (env : NumEnv) (gp : RegGP μ ρ) :
    Except Err (List ℚ) := do
  let pr ← getData (gp.mean.raw Purpose.predict) Purpose.predict
  let m_p := gp.mean.value pr
  let _Kim ← Kim env gp
  let kpr ← getData (gp.cov.raw Purpose.predict) Purpose.predict
  let _K_pp := gp.cov.value kpr
  let lpr ← getData (gp.cov.raw Purpose.learn_predict) Purpose.learn_predict
  let K_lp := gp.cov.value lpr
  pure (vadd m_p (matVec (List.transpose K_lp) _Kim))

end Inference

/-!
Embedding of `bernoulli_estimate` from
`lim/genetics/heritability/estimate.py`.  Only the features of numpy arrays
that the control flow inspects are modelled: the element count (for the
truthiness test `if G:`) and, for single-element arrays, the truth value of
that element.  The external collaborators (`gower_normalization`, the
`stdnorm`-based marker normalization pipeline, `qs_decomposition`,
`qs_decomposition_from_K`, `BernoulliEP`) are uninterpreted functions in a
`HeritEnv`.
-/

/-- The observable shape of a numpy array for this driver's control flow. -/
structure NDArray where
  size : Nat
  firstTruthy : Bool
deriving DecidableEq

/-- Python truthiness of a numpy array, as raised by `if G:`: a one-element
array yields its element's truth value, an empty array is falsy (with a
deprecation warning in the numpy of this code's era), and any other array
raises `ValueError` (truth value is ambiguous). -/
def npTruth (a : NDArray) : Except Err Bool :=
  if a.size = 1 then Except.ok a.firstTruthy
  else if a.size = 0 then Except.ok false
  else Except.error Err.valueError

/-- External collaborators of the heritability drivers, uninterpreted. -/
structure HeritEnv where
  gower : NDArray → NDArray
  normG : NDArray → NDArray
  qs_decomposition : NDArray → (NDArray × NDArray) × (NDArray × NDArray)
  qs_decomposition_from_K : Option NDArray → (NDArray × NDArray) × (NDArray × NDArray)

/-- `bernoulli_estimate(outcomes, G=None, K=None, covariate=None)` of
`lim/genetics/heritability/estimate.py`.  The function normalizes `K` in
place when given, normalizes `G` when given, raises when both are `None`,
evaluates the numpy-array truthiness test `if G:` to choose the
eigen-decomposition path, and then executes `info['Q0'] = Q0` — but `info`
is never assigned in this function's scope (unlike `binomial_estimate`,
which has `info = dict()`), so the name lookup raises `NameError` on every
path that reaches it; the documented `(h2, info)` return is unreachable. -/
def bernoulli_estimate (env : HeritEnv) (outcomes : NDArray)
    (G K covariate : Option NDArray) : Except Err (ℚ × Unit) := do
  let _outcomes := outcomes
  let K := K.map env.gower
  let G := G.map env.normG
  if G = none ∧ K = none then
    Except.error (Err.exception "G, K, and QS cannot be all None")
  else do
    let gtruth ← match G with
      | none => pure false
      | some a => npTruth a
    let _qs := if gtruth then env.qs_decomposition (G.getD ⟨0, false⟩)
               else env.qs_decomposition_from_K K
    let _covariate := covariate
    Except.error (Err.nameError "info")

/-!
Concrete instances used by the witness and counterexample theorems.
-/

/-- A concrete numerical environment: `solve` returns the right-hand side,
`slogdet` reports sign `1` and log-determinant `5`, `log` is constantly `0`. -/
def envC : NumEnv :=
  { solve := fun _ v => v
    solveM := fun _ M => M
    slogdet := fun _ => (1, 5)
    log := fun _ => 0
    pi := 3 }

/-- An environment whose `slogdet` reports a non-positive-definite sign. -/
def envNeg : NumEnv :=
  { solve := fun _ v => v
    solveM := fun _ M => M
    slogdet := fun _ => (-1, 5)
    log := fun _ => 0
    pi := 3 }

/-- A mean function with one free hyperparameter, bound for the learn and
predict purposes; its value is `[1]` and its single gradient vector `[10]`. -/
def meanFreeC : MeanFunc Unit :=
  { raw := fun p =>
      match p with
      | Purpose.learn => some ()
      | Purpose.predict => some ()
      | _ => none
    value := fun _ => [1]
    grad := fun _ => [[10]]
    vars := [{ name := "offset", value := 1/2, fixed := false }] }

/-- The same mean function with its hyperparameter fixed. -/
def meanFixedC : MeanFunc Unit :=
  { meanFreeC with vars := [{ name := "offset", value := 1/2, fixed := true }] }

/-- A covariance function with one free hyperparameter, bound for the learn,
predict and learn_predict purposes; its value is `[[1]]` and its single
gradient matrix `[[2]]`. -/
def covFreeC : CovFunc Unit :=
  { raw := fun p =>
      match p with
      | Purpose.learn => some ((), ())
      | Purpose.predict => some ((), ())
      | Purpose.learn_predict => some ((), ())
      | _ => none
    value := fun _ => [[1]]
    grad := fun _ => [[[2]]]
    vars := [{ name := "scale", value := 1, fixed := false }] }

/-- The same covariance function with its hyperparameter fixed. -/
def covFixedC : CovFunc Unit :=
  { covFreeC with vars := [{ name := "scale", value := 1, fixed := true }] }

/-- A GP core state with one free mean and one free covariance variable. -/
def st2C : RegGP Unit Unit := { y := [4], mean := meanFreeC, cov := covFreeC }

/-- A GP core state with no free variable. -/
def st0C : RegGP Unit Unit := { y := [4], mean := meanFixedC, cov := covFixedC }

/-!
Helper lemmas shared by the claim theorems.
-/

/-- `bind` on a successful `Except` computation applies the continuation. -/
@[simp] theorem exceptOkBind {ε α β : Type} (a : α) (f : α → Except ε β) :
    (Except.ok a : Except ε α) >>= f = f a := rfl

/-- `bind` on a failed `Except` computation propagates the error. -/
@[simp] theorem exceptErrorBind {ε α β : Type} (e : ε) (f : α → Except ε β) :
    (Except.error e : Except ε α) >>= f = Except.error e := rfl

/-- `pure` of the `Except` monad is `Except.ok`. -/
@[simp] theorem exceptPureEq {ε α : Type} (a : α) :
    (pure a : Except ε α) = Except.ok a := rfl

/-- Indexing below the length never raises. -/
theorem pyIndex_lt {α : Type} (l : List α) (d : α) (i : Nat) (h : i < l.length) :
    pyIndex l i = Except.ok (l.getD i d) := by
  simp [pyIndex, List.get?_eq_getElem?, List.getElem?_eq_getElem h,
    List.getD_eq_getElem?_getD]

/-- A range loop whose body never raises collects the mapped values. -/
theorem forRange_ok {γ : Type} (f : Nat → Except Err γ) (g : Nat → γ) :
    ∀ n : Nat, (∀ i, i < n → f i = Except.ok (g i)) →
      forRange f n = Except.ok ((List.range n).map g) := by
  intro n
  induction n with
  | zero => intro _; simp [forRange]
  | succ n ih =>
    intro h
    have hn : forRange f n = Except.ok ((List.range n).map g) :=
      ih (fun i hi => h i (Nat.lt_succ_of_lt hi))
    have hfn : f n = Except.ok (g n) := h n (Nat.lt_succ_self n)
    simp [forRange, hn, hfn, List.range_succ]

/-- Evaluation of `_Kim` when the learn-purpose data of mean and covariance
are bound. -/
theorem Kim_eval {μ ρ : Type} (env : NumEnv) (gp : RegGP μ ρ) (mr : μ) (kr : ρ × ρ)
    (hm : gp.mean.raw Purpose.learn = some mr)
    (hk : gp.cov.raw Purpose.learn = some kr) :
    Gp.Kim env gp =
      Except.ok (env.solve (gp.cov.value kr) (vsub gp.y (gp.mean.value mr))) := by
  simp [Gp.Kim, getData, hm, hk]

/-- Evaluation of `_lml_gradient_mean`: one entry `dm_i . Kiym` per free mean
hyperparameter, in declared order. -/
theorem lml_gradient_mean_eval {μ ρ : Type} (env : NumEnv) (gp : RegGP μ ρ)
    (mr : μ) (kr : ρ × ρ)
    (hm : gp.mean.raw Purpose.learn = some mr)
    (hk : gp.cov.raw Purpose.learn = some kr)
    (hlen : (gp.mean.vars.filter (fun v => !v.fixed)).length ≤ (gp.mean.grad mr).length) :
    Gp.lml_gradient_mean env gp = Except.ok
      ((List.range (gp.mean.vars.filter (fun v => !v.fixed)).length).map
        (fun i => dot ((gp.mean.grad mr).getD i [])
          (env.solve (gp.cov.value kr) (vsub gp.y (gp.mean.value mr))))) := by
  unfold Gp.lml_gradient_mean
  rw [Kim_eval env gp mr kr hm hk]
  simp only [exceptOkBind]
  exact forRange_ok _ _ _ (fun i hi => by
    simp [getData, hm, pyIndex_lt (gp.mean.grad mr) [] i (lt_of_lt_of_le hi hlen)])

/-- Evaluation of `_lml_gradient_cov`: one entry
`( -trace(solve(K, dK_i)) + Kiym . dK_i . Kiym ) / 2` per free covariance
hyperparameter, in declared order. -/
theorem lml_gradient_cov_eval {μ ρ : Type} (env : NumEnv) (gp : RegGP μ ρ)
    (mr : μ) (kr : ρ × ρ)
    (hm : gp.mean.raw Purpose.learn = some mr)
    (hk : gp.cov.raw Purpose.learn = some kr)
    (hlen : (gp.cov.vars.filter (fun v => !v.fixed)).length ≤ (gp.cov.grad kr).length) :
    Gp.lml_gradient_cov env gp = Except.ok
      ((List.range (gp.cov.vars.filter (fun v => !v.fixed)).length).map
        (fun i =>
          (- diagSum (env.solveM (gp.cov.value kr) ((gp.cov.grad kr).getD i []))
            + dot (env.solve (gp.cov.value kr) (vsub gp.y (gp.mean.value mr)))
                (matVec ((gp.cov.grad kr).getD i [])
                  (env.solve (gp.cov.value kr) (vsub gp.y (gp.mean.value mr))))) / 2)) := by
  unfold Gp.lml_gradient_cov
  rw [show getData (gp.cov.raw Purpose.learn) Purpose.learn = Except.ok kr by
    simp [getData, hk]]
  simp only [exceptOkBind]
  rw [Kim_eval env gp mr kr hm hk]
  simp only [exceptOkBind]
  rw [forRange_ok _
    (fun i => - diagSum (env.solveM (gp.cov.value kr) ((gp.cov.grad kr).getD i []))
      + dot (env.solve (gp.cov.value kr) (vsub gp.y (gp.mean.value mr)))
          (matVec ((gp.cov.grad kr).getD i [])
            (env.solve (gp.cov.value kr) (vsub gp.y (gp.mean.value mr)))))
    _ (fun i hi => by
      simp [getData, hk, pyIndex_lt (gp.cov.grad kr) [] i (lt_of_lt_of_le hi hlen)])]
  simp [List.map_map, Function.comp]

/-- Claim C1: for every GP core whose learn-purpose covariance passes the
sign-and-log-determinant positivity check, `lml()` returns exactly
`-(log|K| + (y-m)^T K^{-1} (y-m) + N*log(2*pi)) / 2`, with the quadratic
form computed from the single linear solve `Kiym = solve(K, y-m)`. -/
theorem lml_closed_form {μ ρ : Type} (env : NumEnv) (gp : RegGP μ ρ)
    (mr : μ) (kr : ρ × ρ)
    (hm : gp.mean.raw Purpose.learn = some mr)
    (hk : gp.cov.raw Purpose.learn = some kr)
    (hs : (env.slogdet (gp.cov.value kr)).1 = 1) :
    Gp.lml env gp = Except.ok
      ((- ((env.slogdet (gp.cov.value kr)).2
          + dot (vsub gp.y (gp.mean.value mr))
              (env.solve (gp.cov.value kr) (vsub gp.y (gp.mean.value mr)))
          + (gp.y.length : ℚ) * env.log (2 * env.pi))) / 2) := by
  unfold Gp.lml
  rw [Kim_eval env gp mr kr hm hk]
  simp [getData, hm, hk, hs]

/-- Witness for C1 on a concrete instance: the closed form evaluates to `-7`. -/
theorem lml_closed_form_witness : Gp.lml envC st2C = Except.ok (-7) := by
  have h := lml_closed_form envC st2C () ((), ()) rfl rfl rfl
  rw [h]
  norm_num [envC, st2C, meanFreeC, covFreeC, vsub, dot, List.zipWith]

/-- Claim C3: `lml()` aborts with the assertion failure exactly when the sign
reported by the sign-and-log-determinant decomposition of the learn-purpose
covariance differs from `+1`, and returns normally when the sign is `+1`. -/
theorem lml_spd_sign_check {μ ρ : Type} (env : NumEnv) (gp : RegGP μ ρ)
    (mr : μ) (kr : ρ × ρ)
    (hm : gp.mean.raw Purpose.learn = some mr)
    (hk : gp.cov.raw Purpose.learn = some kr) :
    Gp.lml env gp =
      (if (env.slogdet (gp.cov.value kr)).1 = 1
       then Except.ok
        ((- ((env.slogdet (gp.cov.value kr)).2
            + dot (vsub gp.y (gp.mean.value mr))
                (env.solve (gp.cov.value kr) (vsub gp.y (gp.mean.value mr)))
            + (gp.y.length : ℚ) * env.log (2 * env.pi))) / 2)
       else Except.error Err.assertionError) := by
  unfold Gp.lml
  rw [Kim_eval env gp mr kr hm hk]
  by_cases hs : (env.slogdet (gp.cov.value kr)).1 = 1
  · simp [getData, hm, hk, hs]
  · simp [getData, hm, hk, hs]

/-- Witness for C3 on a concrete instance whose `slogdet` sign is `-1`:
`lml()` raises the assertion failure. -/
theorem lml_spd_sign_check_witness :
    Gp.lml envNeg st2C = Except.error Err.assertionError := by
  have h := lml_spd_sign_check envNeg st2C () ((), ()) rfl rfl
  rw [h, if_neg (by norm_num [envNeg])]

/-- Claim C2 (amended): for every GP core with at least one free mean and one
free covariance hyperparameter, `lml_gradient()` returns the
covariance-parameter gradient block first, followed by the mean-parameter
gradient block (the source returns `grad_cov + grad_mean`), each block
listing its function's free variables in declared order. -/
theorem lml_gradient_block_order {μ ρ : Type} (env : NumEnv) (gp : RegGP μ ρ)
    (mr : μ) (kr : ρ × ρ)
    (hm : gp.mean.raw Purpose.learn = some mr)
    (hk : gp.cov.raw Purpose.learn = some kr)
    (hm1 : 1 ≤ (gp.mean.vars.filter (fun v => !v.fixed)).length)
    (hc1 : 1 ≤ (gp.cov.vars.filter (fun v => !v.fixed)).length)
    (hml : (gp.mean.vars.filter (fun v => !v.fixed)).length ≤ (gp.mean.grad mr).length)
    (hcl : (gp.cov.vars.filter (fun v => !v.fixed)).length ≤ (gp.cov.grad kr).length) :
    Gp.lml_gradient env gp = Except.ok
      ((List.range (gp.cov.vars.filter (fun v => !v.fixed)).length).map
        (fun i =>
          (- diagSum (env.solveM (gp.cov.value kr) ((gp.cov.grad kr).getD i []))
            + dot (env.solve (gp.cov.value kr) (vsub gp.y (gp.mean.value mr)))
                (matVec ((gp.cov.grad kr).getD i [])
                  (env.solve (gp.cov.value kr) (vsub gp.y (gp.mean.value mr))))) / 2)
        ++ (List.range (gp.mean.vars.filter (fun v => !v.fixed)).length).map
        (fun i => dot ((gp.mean.grad mr).getD i [])
          (env.solve (gp.cov.value kr) (vsub gp.y (gp.mean.value mr))))) := by
  unfold Gp.lml_gradient
  rw [lml_gradient_cov_eval env gp mr kr hm hk hcl]
  simp only [exceptOkBind]
  rw [lml_gradient_mean_eval env gp mr kr hm hk hml]
  simp

/-- Witness for the amended C2 on a concrete instance: the covariance entry
`8` precedes the mean entry `30`. -/
theorem lml_gradient_block_order_witness :
    Gp.lml_gradient envC st2C = Except.ok [8, 30] := by
  have h := lml_gradient_block_order envC st2C () ((), ()) rfl rfl
    (by decide) (by decide) (by decide) (by decide)
  rw [h]
  norm_num [st2C, meanFreeC, covFreeC, envC, vsub, dot, matVec, diagSum,
    List.zipWith, List.enum, List.range_succ]

/-- Counterexample to C2 as stated: on a concrete GP core whose free mean
variable has gradient entry `30` and whose free covariance variable has
gradient entry `8`, `lml_gradient()` returns `[8, 30]` — the covariance
block followed by the mean block — not the mean block first. -/
theorem lml_gradient_mean_first_counterexample :
    Gp.lml_gradient_cov envC st2C = Except.ok [8] ∧
    Gp.lml_gradient_mean envC st2C = Except.ok [30] ∧
    Gp.lml_gradient envC st2C = Except.ok [8, 30] ∧
    ([8, 30] : List ℚ) ≠ [30] ++ [8] := by
  have hcov : Gp.lml_gradient_cov envC st2C = Except.ok [8] := by
    rw [lml_gradient_cov_eval envC st2C () ((), ()) rfl rfl (by decide)]
    norm_num [st2C, meanFreeC, covFreeC, envC, vsub, dot, matVec, diagSum,
      List.zipWith, List.enum, List.range_succ]
  have hmean : Gp.lml_gradient_mean envC st2C = Except.ok [30] := by
    rw [lml_gradient_mean_eval envC st2C () ((), ()) rfl rfl (by decide)]
    norm_num [st2C, meanFreeC, covFreeC, envC, vsub, dot,
      List.zipWith, List.range_succ]
  have hgrad : Gp.lml_gradient envC st2C = Except.ok [8, 30] := by
    unfold Gp.lml_gradient
    rw [hcov]
    simp only [exceptOkBind]
    rw [hmean]
    simp
  exact ⟨hcov, hmean, hgrad, by norm_num⟩

/-- Claim C4: for every free covariance hyperparameter `j`, the `j`-th entry
of the covariance block of `lml_gradient()` equals
`(-trace(solve(K, dK_j)) + Kiym . dK_j . Kiym) / 2`, the trace term being the
sum of the diagonal of the matrix solve `solve(K, dK_j)` (the embedding has
no matrix-inverse primitive at all: only `solve`). -/
theorem lml_gradient_cov_entry_formula {μ ρ : Type} (env : NumEnv)
    (gp : RegGP μ ρ) (mr : μ) (kr : ρ × ρ) (j : Nat)
    (hm : gp.mean.raw Purpose.learn = some mr)
    (hk : gp.cov.raw Purpose.learn = some kr)
    (hj : j < (gp.cov.vars.filter (fun v => !v.fixed)).length)
    (hcl : (gp.cov.vars.filter (fun v => !v.fixed)).length ≤ (gp.cov.grad kr).length)
    (hml : (gp.mean.vars.filter (fun v => !v.fixed)).length ≤ (gp.mean.grad mr).length) :
    ∃ gc gm : List ℚ,
      Gp.lml_gradient env gp = Except.ok (gc ++ gm) ∧
      gc.length = (gp.cov.vars.filter (fun v => !v.fixed)).length ∧
      gc.get? j = some
        ((- diagSum (env.solveM (gp.cov.value kr) ((gp.cov.grad kr).getD j []))
          + dot (env.solve (gp.cov.value kr) (vsub gp.y (gp.mean.value mr)))
              (matVec ((gp.cov.grad kr).getD j [])
                (env.solve (gp.cov.value kr) (vsub gp.y (gp.mean.value mr))))) / 2) := by
  refine ⟨(List.range (gp.cov.vars.filter (fun v => !v.fixed)).length).map
      (fun i =>
        (- diagSum (env.solveM (gp.cov.value kr) ((gp.cov.grad kr).getD i []))
          + dot (env.solve (gp.cov.value kr) (vsub gp.y (gp.mean.value mr)))
              (matVec ((gp.cov.grad kr).getD i [])
                (env.solve (gp.cov.value kr) (vsub gp.y (gp.mean.value mr))))) / 2),
    (List.range (gp.mean.vars.filter (fun v => !v.fixed)).length).map
      (fun i => dot ((gp.mean.grad mr).getD i [])
        (env.solve (gp.cov.value kr) (vsub gp.y (gp.mean.value mr)))),
    ?_, ?_, ?_⟩
  · unfold Gp.lml_gradient
    rw [lml_gradient_cov_eval env gp mr kr hm hk hcl]
    simp only [exceptOkBind]
    rw [lml_gradient_mean_eval env gp mr kr hm hk hml]
    simp
  · simp
  · rw [List.get?_map, List.get?_range hj]
    simp

/-- Witness for C4 on a concrete instance: the single covariance entry is `8`. -/
theorem lml_gradient_cov_entry_formula_witness :
    ∃ gc gm : List ℚ,
      Gp.lml_gradient envC st2C = Except.ok (gc ++ gm) ∧
      gc.length = (st2C.cov.vars.filter (fun v => !v.fixed)).length ∧
      gc.get? 0 = some
        ((- diagSum (envC.solveM (st2C.cov.value ((), ()))
            ((st2C.cov.grad ((), ())).getD 0 []))
          + dot (envC.solve (st2C.cov.value ((), ()))
              (vsub st2C.y (st2C.mean.value ())))
              (matVec ((st2C.cov.grad ((), ())).getD 0 [])
                (envC.solve (st2C.cov.value ((), ()))
                  (vsub st2C.y (st2C.mean.value ()))))) / 2) :=
  lml_gradient_cov_entry_formula envC st2C () ((), ()) 0 rfl rfl
    (by decide) (by decide) (by decide)

/-- Evaluation of the inference-module `_Kim` under bound learn data. -/
theorem InfKim_eval {μ ρ : Type} (env : NumEnv) (gp : RegGP μ ρ) (mr : μ)
    (kr : ρ × ρ)
    (hm : gp.mean.raw Purpose.learn = some mr)
    (hk : gp.cov.raw Purpose.learn = some kr) :
    Inference.Kim env gp =
      Except.ok (env.solve (gp.cov.value kr) (vsub gp.y (gp.mean.value mr))) := by
  simp [Inference.Kim, getData, hm, hk]

/-- Claim C5: for every valid binding of the predict and learn_predict
purposes, `predict()` returns exactly `m_predict + K_learn_predict.T . Kiym`,
and its output length equals the length of the bound predict-purpose mean
vector. -/
theorem predict_posterior_mean_formula {μ ρ : Type} (env : NumEnv)
    (gp : RegGP μ ρ) (mr mp : μ) (kr kp klp : ρ × ρ)
    (hm : gp.mean.raw Purpose.learn = some mr)
    (hk : gp.cov.raw Purpose.learn = some kr)
    (hmp : gp.mean.raw Purpose.predict = some mp)
    (hkp : gp.cov.raw Purpose.predict = some kp)
    (hklp : gp.cov.raw Purpose.learn_predict = some klp)
    (hdim : (List.transpose (gp.cov.value klp)).length = (gp.mean.value mp).length) :
    Inference.predict env gp = Except.ok
      (vadd (gp.mean.value mp)
        (matVec (List.transpose (gp.cov.value klp))
          (env.solve (gp.cov.value kr) (vsub gp.y (gp.mean.value mr))))) ∧
    ∀ v, Inference.predict env gp = Except.ok v →
      v.length = (gp.mean.value mp).length := by
  have heq : Inference.predict env gp = Except.ok
      (vadd (gp.mean.value mp)
        (matVec (List.transpose (gp.cov.value klp))
          (env.solve (gp.cov.value kr) (vsub gp.y (gp.mean.value mr))))) := by
    unfold Inference.predict
    rw [InfKim_eval env gp mr kr hm hk]
    simp [getData, hmp, hkp, hklp]
  refine ⟨heq, fun v hv => ?_⟩
  rw [heq] at hv
  cases hv
  simp [vadd, matVec, List.length_zipWith, hdim]

/-- Witness for C5 on a concrete instance: the posterior mean is `[4]`,
of the same length as the predict-purpose mean `[1]`. -/
theorem predict_posterior_mean_formula_witness :
    Inference.predict envC st2C = Except.ok
      (vadd (st2C.mean.value ())
        (matVec (List.transpose (st2C.cov.value ((), ())))
          (envC.solve (st2C.cov.value ((), ()))
            (vsub st2C.y (st2C.mean.value ()))))) :=
  (predict_posterior_mean_formula envC st2C () () ((), ()) ((), ()) ((), ())
    rfl rfl rfl rfl rfl (by decide)).1

/-- Claim C6: `learn()` dispatches strictly on the number of free variables in
the merged variable set (all free mean variables plus all free covariance
variables): zero free variables is a no-op leaving `lml()` unchanged, exactly
one invokes the bounded scalar maximizer, two or more invoke the multivariate
maximizer. -/
theorem learn_dispatch_arity {μ ρ : Type}
    (maximize_scalar maximize_array : RegGP μ ρ → RegGP μ ρ) (env : NumEnv)
    (gp : RegGP μ ρ) :
    Gp.learn maximize_scalar maximize_array gp =
      (if (Gp.variablesOf gp).length = 0 then gp
       else if (Gp.variablesOf gp).length = 1 then maximize_scalar gp
       else maximize_array gp) ∧
    (Gp.variablesOf gp).length
      = (gp.mean.vars.filter (fun v => !v.fixed)).length
        + (gp.cov.vars.filter (fun v => !v.fixed)).length ∧
    ((Gp.variablesOf gp).length = 0 →
      Gp.learn maximize_scalar maximize_array gp = gp ∧
      Gp.lml env (Gp.learn maximize_scalar maximize_array gp) = Gp.lml env gp) := by
  refine ⟨rfl, ?_, fun h0 => ?_⟩
  · simp [Gp.variablesOf, merge_variables]
  · constructor
    · simp [Gp.learn, h0]
    · simp [Gp.learn, h0]

/-- Witness for C6 on a concrete zero-free-variable instance: `learn()` is a
no-op and `lml()` is unchanged. -/
theorem learn_dispatch_arity_witness :
    Gp.learn id id st0C = st0C ∧
    Gp.lml envC (Gp.learn id id st0C) = Gp.lml envC st0C :=
  (learn_dispatch_arity id id envC st0C).2.2 (by decide)

/-- Claim C7 (amended): `GP(y, mean, cov)` stores the three references and
performs no computation and no dimension validation; in particular a
construction with mismatched dimensions succeeds and raises nothing at
construction time. -/
theorem init_stores_without_validation {μ ρ : Type} (y : List ℚ)
    (mean : MeanFunc μ) (cov : CovFunc ρ) :
    (RegGP.mk y mean cov).y = y ∧ (RegGP.mk y mean cov).mean = mean ∧
    (RegGP.mk y mean cov).cov = cov :=
  ⟨rfl, rfl, rfl⟩

/-- Counterexample to C7 as stated: constructing a GP core over the
two-element observation vector `[4, 4]` and a mean whose learn-purpose value
`[1]` has length one is not a fatal error — the constructor is total and
merely stores the mismatched references. -/
theorem init_mismatch_not_fatal_counterexample :
    (RegGP.mk [4, 4] meanFreeC covFreeC).y = [4, 4] ∧
    (RegGP.mk [4, 4] meanFreeC covFreeC).mean = meanFreeC ∧
    (RegGP.mk [4, 4] meanFreeC covFreeC).cov = covFreeC ∧
    (meanFreeC.value ()).length ≠ ([4, 4] : List ℚ).length :=
  ⟨rfl, rfl, rfl, by decide⟩

/-- Collapsing a repeated condition in nested conditionals. -/
theorem ite_same_collapse {α : Type} (c : Prop) [Decidable c] (a b e : α) :
    (if c then a else if c then b else e) = if c then a else e := by
  by_cases h : c <;> simp [h]

/-- Claim C8: two consecutive `predict()` calls with no intervening
`set_data`/`unset_data`/`learn()` return identical vectors — the transient
bind/unbind of the learn_predict purpose inside the gp-module `predict()`
does not change its own subsequent result.  (The inference-module `predict()`
is a pure function of the state, so its idempotence is definitional.) -/
theorem predict_idempotent {μ ρ : Type} (env : NumEnv) (gp : RegGP μ ρ)
    (v : List ℚ) (gp1 : RegGP μ ρ)
    (h : Gp.predict env gp = Except.ok (v, gp1)) :
    Except.map Prod.fst (Gp.predict env gp1) = Except.ok v := by
  rcases hA : gp.mean.raw Purpose.predict with _ | pr <;>
  rcases hB : gp.mean.raw Purpose.learn with _ | lr <;>
  rcases hC : gp.cov.raw Purpose.learn with _ | klr <;>
  rcases hD : gp.cov.raw Purpose.predict with _ | kpr <;>
  simp [Gp.predict, Gp.Kim, getData, CovFunc.set_data, CovFunc.unset_data,
    hA, hB, hC, hD] at h
  obtain ⟨hv, hst⟩ := h
  subst hst
  simp [Gp.predict, Gp.Kim, getData, CovFunc.set_data, CovFunc.unset_data,
    hA, hB, hC, hD, ite_same_collapse, hv, Except.map]

/-- The state left behind by the first concrete `predict()` call. -/
def st2CAfter : RegGP Unit Unit :=
  { st2C with
    cov := (st2C.cov.set_data () () Purpose.learn_predict).unset_data
      Purpose.learn_predict }

/-- Witness for C8 on a concrete instance: the second `predict()` call
returns the same vector `[4]` as the first. -/
theorem predict_idempotent_witness :
    Except.map Prod.fst (Gp.predict envC st2CAfter) = Except.ok ([4] : List ℚ) := by
  refine predict_idempotent envC st2C [4] st2CAfter ?_
  show Gp.predict envC st2C = Except.ok ([4], st2CAfter)
  simp [Gp.predict, Gp.Kim, getData, CovFunc.set_data, CovFunc.unset_data,
    st2CAfter, st2C, meanFreeC, covFreeC, envC, vsub, vadd, dot, matVec,
    List.transpose, List.zipWith]

/-- A trivial concrete environment for the heritability driver. -/
def envH0 : HeritEnv :=
  { gower := fun a => a
    normG := fun a => a
    qs_decomposition := fun a => ((a, a), (a, a))
    qs_decomposition_from_K := fun _ =>
      ((NDArray.mk 1 true, NDArray.mk 1 true), (NDArray.mk 1 true, NDArray.mk 1 true)) }

/-- Claim C9: every call to `bernoulli_estimate` that supplies a non-None `G`
or `K` (and therefore passes the both-None check) raises before returning —
either the `NameError` from the undefined name `info` or the `ValueError`
from the truthiness test `if G:` on a multi-element numpy array — so the
documented `(heritability, info)` tuple is never returned. -/
theorem bernoulli_estimate_never_returns (env : HeritEnv) (outcomes : NDArray)
    (G K covariate : Option NDArray) (h : G ≠ none ∨ K ≠ none) :
    ∃ e, bernoulli_estimate env outcomes G K covariate = Except.error e ∧
      (e = Err.nameError "info" ∨ e = Err.valueError) := by
  rcases G with _ | g
  · rcases K with _ | k
    · rcases h with h | h <;> simp at h
    · exact ⟨Err.nameError "info", by simp [bernoulli_estimate], Or.inl rfl⟩
  · by_cases h1 : (env.normG g).size = 1
    · exact ⟨Err.nameError "info",
        by simp [bernoulli_estimate, npTruth, h1], Or.inl rfl⟩
    · by_cases h0 : (env.normG g).size = 0
      · exact ⟨Err.nameError "info",
          by simp [bernoulli_estimate, npTruth, h1, h0], Or.inl rfl⟩
      · exact ⟨Err.valueError,
          by simp [bernoulli_estimate, npTruth, h1, h0], Or.inr rfl⟩

/-- Witness for C9 on a concrete call with a two-by-two kinship matrix and no
marker matrix: the call fails with the `info` NameError. -/
theorem bernoulli_estimate_never_returns_witness :
    ∃ e, bernoulli_estimate envH0 (NDArray.mk 1 true) none (some (NDArray.mk 4 true))
        none = Except.error e ∧
      (e = Err.nameError "info" ∨ e = Err.valueError) :=
  bernoulli_estimate_never_returns envH0 (NDArray.mk 1 true) none
    (some (NDArray.mk 4 true)) none (Or.inr (by simp))

/-- Claim C10: for every GP core state, the gp-module `RegGP` and the
inference-module `RegGP` compute identical `lml()`, `lml_gradient()` and
`variables()` results and select the same optimizer branch in `learn()`;
they differ only in `predict()`: the gp version binds the learn_predict
purpose from the learn- and predict-purpose raw data (first components of
the raw tuples), computes the same estimate the inference version computes
over a state with that binding already made by the caller, and leaves
learn_predict unbound afterwards. -/
theorem gp_inference_refinement {μ ρ : Type} (env : NumEnv) (gp : RegGP μ ρ)
    (klr kpr : ρ × ρ)
    (hl : gp.cov.raw Purpose.learn = some klr)
    (hp : gp.cov.raw Purpose.predict = some kpr) :
    Gp.lml env gp = Inference.lml env gp ∧
    Gp.lml_gradient env gp = Inference.lml_gradient env gp ∧
    Gp.variablesOf gp = Inference.variablesOf gp ∧
    (∀ f g : RegGP μ ρ → RegGP μ ρ, Gp.learn f g gp = Inference.learn f g gp) ∧
    Except.map Prod.fst (Gp.predict env gp) =
      Inference.predict env
        { gp with cov := gp.cov.set_data klr.1 kpr.1 Purpose.learn_predict } ∧
    (∀ v gp1, Gp.predict env gp = Except.ok (v, gp1) →
      gp1.cov.raw Purpose.learn_predict = none) := by
  refine ⟨rfl, rfl, rfl, fun f g => rfl, ?_, ?_⟩
  · rcases hA : gp.mean.raw Purpose.predict with _ | pr <;>
    rcases hB : gp.mean.raw Purpose.learn with _ | lr <;>
    simp [Gp.predict, Inference.predict, Gp.Kim, Inference.Kim, getData,
      CovFunc.set_data, CovFunc.unset_data, hA, hB, hl, hp, Except.map]
  · intro v gp1 h
    rcases hA : gp.mean.raw Purpose.predict with _ | pr <;>
    rcases hB : gp.mean.raw Purpose.learn with _ | lr <;>
    simp [Gp.predict, Gp.Kim, getData, CovFunc.set_data, CovFunc.unset_data,
      hA, hB, hl, hp] at h
    obtain ⟨-, hst⟩ := h
    rw [← hst]
    simp

/-- Witness for C10 on a concrete instance: the gp-module `predict()` value
agrees with the inference-module `predict()` over the caller-bound state. -/
theorem gp_inference_refinement_witness :
    Except.map Prod.fst (Gp.predict envC st2C) =
      Inference.predict envC
        { st2C with cov := st2C.cov.set_data () () Purpose.learn_predict } :=
  (gp_inference_refinement envC st2C ((), ()) ((), ()) rfl rfl).2.2.2.2.1
